import Mathlib

/-!
Verification of the mp3 file server (`src/mp3.py`): a shallow embedding of
its request handling (`Handler.do_GET`, `send_json`, `send_html`), of the
startup root-directory check, and — modelled from the spec, since the code
delegates to the Python standard library's `SimpleHTTPRequestHandler`,
which is not part of this repository's sources — of the static file
responder.  Strings of the program are modelled byte-transparently: a
`Char` of code point below 256 stands for one byte where percent-decoding
produces raw bytes.
-/

namespace Mp3Srv

/-- `AUDIO_EXT = '.mp3'` — src/mp3.py line 17. -/
def AUDIO_EXT : String := ".mp3"

/-- ASCII hex-digit test, as accepted by `urllib.parse.unquote`'s
two-character escape table (`_hextobyte`, keys over `0123456789abcdefABCDEF`). -/
def isHexDigit (c : Char) : Bool :=
  ('0' ≤ c && c ≤ '9') || ('a' ≤ c && c ≤ 'f') || ('A' ≤ c && c ≤ 'F')

/-- Numeric value of an ASCII hex digit. -/
def hexVal (c : Char) : Nat :=
  if '0' ≤ c && c ≤ '9' then c.toNat - '0'.toNat
  else if 'a' ≤ c && c ≤ 'f' then c.toNat - 'a'.toNat + 10
  else c.toNat - 'A'.toNat + 10

/-- Byte-level model of `urllib.parse.unquote` (src/mp3.py line 27 calls it):
each `%hh` with two hex digits becomes the byte `hh`; a `%` not followed by
two hex digits is kept literally, and scanning resumes at the next
character, matching CPython's split-on-`%` algorithm. -/
def percentDecodeAux : List Char → List Char
  | [] => []
  | '%' :: h :: l :: rest =>
      if isHexDigit h && isHexDigit l then
        Char.ofNat (16 * hexVal h + hexVal l) :: percentDecodeAux rest
      else
        '%' :: percentDecodeAux (h :: l :: rest)
  | '%' :: rest => '%' :: rest
  | c :: rest => c :: percentDecodeAux rest

/-- `urllib.parse.unquote`, byte-level model over strings. -/
def unquote (s : String) : String := ⟨percentDecodeAux s.data⟩

/-- `self.path.split('?', 1)[0]` — the request target up to (excluding) the
first literal `'?'`; the whole target when it has none (src/mp3.py line 27). -/
def stripQuery (s : String) : String := ⟨s.data.takeWhile (fun c => c ≠ '?')⟩

/-- The routed path of a request target:
`urllib.parse.unquote(self.path.split('?', 1)[0])` (src/mp3.py line 27). -/
def routedPath (target : String) : String := unquote (stripQuery target)

/-- ASCII lowercasing of one character, the fragment of `str.lower` that can
affect a comparison against the all-ASCII `AUDIO_EXT` suffix. -/
def lowerChar (c : Char) : Char :=
  if 'A' ≤ c && c ≤ 'Z' then Char.ofNat (c.toNat + 32) else c

/-- `f.lower()`, characterwise (src/mp3.py line 29). -/
def lowerStr (s : String) : String := ⟨s.data.map lowerChar⟩

/-- `f.lower().endswith(AUDIO_EXT)` — the playlist filter predicate
(src/mp3.py line 29). -/
def isAudio (f : String) : Bool := AUDIO_EXT.data.isSuffixOf (lowerStr f).data

/-- Hex digit as produced by Python's `json` encoder in `\uXXXX` escapes
(lowercase letters). -/
def jsonHexDigit (n : Nat) : Char :=
  if n < 10 then Char.ofNat (48 + n) else Char.ofNat (87 + n)

/-- Four-digit lowercase hex rendering of `n`, as in a `\uXXXX` escape. -/
def jsonHex4 (n : Nat) : List Char :=
  [jsonHexDigit (n / 4096 % 16), jsonHexDigit (n / 256 % 16),
   jsonHexDigit (n / 16 % 16), jsonHexDigit (n % 16)]

/-- Escape of one character in a JSON string produced by `json.dumps` with
its default `ensure_ascii=True`: the two-character escapes for quote,
backslash and the named control characters; `\uXXXX` (with a surrogate pair
beyond the BMP) for other characters below 0x20 or at and above 0x7f. -/
def jsonEscapeChar (c : Char) : List Char :=
  if c = '"' then ['\\', '"']
  else if c = '\\' then ['\\', '\\']
  else if c = '\n' then ['\\', 'n']
  else if c = '\r' then ['\\', 'r']
  else if c = '\t' then ['\\', 't']
  else if c = Char.ofNat 8 then ['\\', 'b']
  else if c = Char.ofNat 12 then ['\\', 'f']
  else if c.toNat < 32 || (c.toNat ≥ 127 && c.toNat < 65536) then
    '\\' :: 'u' :: jsonHex4 c.toNat
  else if c.toNat ≥ 65536 then
    '\\' :: 'u' :: jsonHex4 (55296 + (c.toNat - 65536) / 1024) ++
      '\\' :: 'u' :: jsonHex4 (56320 + (c.toNat - 65536) % 1024)
  else [c]

/-- JSON rendering of one string, `json.dumps`-style. -/
def jsonString (s : String) : String :=
  ⟨'"' :: (s.data.flatMap jsonEscapeChar) ++ ['"']⟩

/-- `json.dumps` of a list of strings: square brackets around the rendered
elements joined by `", "` (Python's default item separator);
`json.dumps([])` is `"[]"` (src/mp3.py line 47). -/
def jsonDumps (xs : List String) : String :=
  "[" ++ String.intercalate ", " (xs.map jsonString) ++ "]"

/-- UTF-8 encoding of one code point, as `str.encode()` performs. -/
def utf8Bytes (n : Nat) : List Nat :=
  if n < 128 then [n]
  else if n < 2048 then [192 + n / 64, 128 + n % 64]
  else if n < 65536 then [224 + n / 4096, 128 + n / 64 % 64, 128 + n % 64]
  else [240 + n / 262144, 128 + n / 4096 % 64, 128 + n / 64 % 64, 128 + n % 64]

/-- `s.encode()` — the UTF-8 bytes of a string (src/mp3.py lines 41, 47). -/
def encodeStr (s : String) : List Nat := s.data.flatMap (fun c => utf8Bytes c.toNat)

/-- An HTTP response as observed by the client: status code, the
`Content-Type` header value, and the body bytes. -/
structure Response where
  status : Nat
  contentType : String
  body : List Nat
deriving DecidableEq, Repr

/-- `Handler.send_json` (src/mp3.py lines 43–47): status 200,
`Content-Type: application/json`, body `json.dumps(obj).encode()`. -/
def send_json (obj : List String) : Response :=
  { status := 200, contentType := "application/json", body := encodeStr (jsonDumps obj) }

/-- `Handler.send_html` (src/mp3.py lines 37–41): status 200,
`Content-Type: text/html; charset=utf-8`, body `html.encode()`. -/
def send_html (html : String) : Response :=
  { status := 200, contentType := "text/html; charset=utf-8", body := encodeStr html }

/-- `PLAYER_HTML` (src/mp3.py lines 50–176), the constant player page. -/
def PLAYER_HTML : String := "<!doctype html>
<html>
<head>
<meta charset=\"utf-8\"/>
<title>mp3srv + real-time EQ</title>
<style>
  body\x7bfont-family:sans-serif;text-align:center;margin:0;background:#111;color:#eee\x7d
  #now\x7bmargin:8px 0;font-weight:bold\x7d
  button\x7bwidth:4.5em;height:2.2em;margin:.2em;font-size:1em\x7d
  #a\x7bdisplay:none\x7d
  #eq\x7bdisplay:flex;justify-content:center;align-items:end;height:120px;margin:10px 0\x7d
  .bar\x7bwidth:6px;margin:1px;background:#0f0;min-height:2px\x7d
  #controls\x7bmargin:10px auto;width:320px;display:flex;flex-direction:column\x7d
  .band\x7bdisplay:flex;justify-content:space-between;align-items:center;margin:3px 0\x7d
  .band input\x7bwidth:200px\x7d
</style>
</head>
<body>
  <div id=\"now\">loading…</div>

  <audio id=\"a\" preload=\"metadata\"></audio>

  <!-- spectrum visualizer -->
  <div id=\"eq\"></div>

  <!-- EQ sliders -->
  <div id=\"controls\"></div>

  <!-- transport -->
  <button onclick=\"prev()\">⏮</button>
  <button onclick=\"toggle()\">⏯</button>
  <button onclick=\"next()\">⏭</button>

<script>
/* ---------- playlist ---------- */
let idx = 0, list = [];
const a   = document.getElementById(\x27a\x27);
const now = document.getElementById(\x27now\x27);

fetch(\x27/playlist.json\x27)
  .then(r => r.json())
  .then(files => \x7b
      list = files;
      if (list.length) \x7b setupEQ(); load(0); \x7d
      else now.textContent = \x27No mp3 files found.\x27;
  \x7d);

/* ---------- Web Audio setup ---------- */
let ctx, source, analyser, bands=[], gains=[];

function setupEQ()\x7b
  ctx = new (window.AudioContext || window.webkitAudioContext)();
  source = ctx.createMediaElementSource(a);

  /* 10 octave-spaced bands (approx) */
  const freqs = [32, 64, 125, 250, 500, 1000, 2000, 4000, 8000, 16000];
  freqs.forEach((f,i)=>\x7b
    const filter = ctx.createBiquadFilter();
    filter.type = \x27peaking\x27;
    filter.frequency.value = f;
    filter.Q.value  = Math.SQRT2;          // ≈ 1.41
    filter.gain.value = 0;                 // flat
    bands.push(filter);
    gains.push(filter.gain);

    /* UI slider */
    const row = document.createElement(\x27div\x27);
    row.className = \x27band\x27;
    row.innerHTML = \x60
      <label>$\x7bf\x7d Hz</label>
      <input type=\"range\" min=\"-12\" max=\"12\" value=\"0\" step=\"0.5\">
      <span>0 dB</span>\x60;
    const slider = row.querySelector(\x27input\x27);
    const span   = row.querySelector(\x27span\x27);
    slider.addEventListener(\x27input\x27, e=>\x7b
      const g = parseFloat(e.target.value);
      gains[i].value = g;
      span.textContent = g + \x27 dB\x27;
    \x7d);
    document.getElementById(\x27controls\x27).appendChild(row);
  \x7d);

  /* chain: source → filters → analyser → destination */
  let node = source;
  bands.forEach(b=>\x7b node.connect(b); node = b; \x7d);
  analyser = ctx.createAnalyser();
  analyser.fftSize = 1024;
  node.connect(analyser).connect(ctx.destination);

  /* spectrum visualizer */
  const bufferLength = analyser.frequencyBinCount;
  const dataArray    = new Uint8Array(bufferLength);
  const eqDiv        = document.getElementById(\x27eq\x27);
  for (let i=0;i<64;i++)\x7b
    const bar = document.createElement(\x27div\x27);
    bar.className = \x27bar\x27;
    eqDiv.appendChild(bar);
  \x7d
  const bars = eqDiv.children;
  function draw()\x7b
    analyser.getByteFrequencyData(dataArray);
    for (let i=0;i<bars.length;i++)\x7b
      const h = dataArray[i*4];
      bars[i].style.height = (h/2) + \x27px\x27;
    \x7d
    requestAnimationFrame(draw);
  \x7d
  draw();
\x7d

/* ---------- player helpers ---------- */
function load(i)\x7b
  idx = (i + list.length) % list.length;
  now.textContent = \x60Now playing: $\x7blist[idx]\x7d\x60;
  a.src = encodeURIComponent(list[idx]);
  a.play();
\x7d
function next()\x7bload(idx+1);\x7d
function prev()\x7bload(idx-1);\x7d
function toggle()\x7b
  if (ctx.state === \x27suspended\x27) ctx.resume();
  a.paused ? a.play() : a.pause();
\x7d
a.addEventListener(\x27ended\x27, next);
</script>
</body>
</html>"

/-- The filesystem as the server observes it: the entries directly inside
the served root — `none` when the root is unreadable at request time — each
a filename paired with its byte content, plus the files outside the served
root, which no handler may ever consult. -/
structure Fs where
  rootEntries : Option (List (String × List Nat))
  outsideFiles : List (String × List Nat)

/-- `os.listdir('.')` over the served root (src/mp3.py line 29):
the entry names, or failure when the root is unreadable. -/
def listdir (fs : Fs) : Option (List String) :=
  fs.rootEntries.map (List.map Prod.fst)

/-- Modelled from the spec: the 404 not-found response of the Static File
Responder (`SimpleHTTPRequestHandler`, Python standard library, not under
src/) — "otherwise respond 404"; its body carries no served file content. -/
def notFound : Response :=
  { status := 404, contentType := "text/html; charset=utf-8", body := [] }

/-- Modelled from the spec: the server error response for a listing failure
("surfaced as a server error response to that request only") — the mapping
of an in-handler exception to a response lives in the standard library
server loop, not under src/. -/
def serverError : Response :=
  { status := 500, contentType := "text/html; charset=utf-8", body := [] }

/-- Split on `'/'`, keeping empty pieces (as `str.split('/')` would). -/
def splitSlash : List Char → List (List Char)
  | [] => [[]]
  | c :: rest =>
    if c = '/' then
      [] :: splitSlash rest
    else
      match splitSlash rest with
      | [] => [[c]]
      | s :: ss => (c :: s) :: ss

/-- The non-empty segments of a decoded request path. -/
def pathSegments (p : String) : List String :=
  ((splitSlash p.data).filter (fun s => s ≠ [])).map (fun s => ⟨s⟩)

/-- Modelled from the spec: path resolution of the Static File Responder
("resolve the request path against the served root", "reject paths
resolving with parent-directory components that escape the root") — `none`
when at some point a `..` segment would step above the served root,
otherwise the normalized segment list relative to the root. -/
def resolveAux : List String → List String → Option (List String)
  | acc, [] => some acc.reverse
  | acc, s :: rest =>
    if s = "." then resolveAux acc rest
    else if s = ".." then
      if acc.isEmpty then none else resolveAux acc.tail rest
    else resolveAux (s :: acc) rest

/-- Resolution of a whole decoded path against the served root. -/
def resolvePath (p : String) : Option (List String) :=
  resolveAux [] (pathSegments p)

/-- A `..` segment that at some point would step above the root: the
claim's "parent-directory traversal segments that would resolve outside the
served root", as a predicate on the segment list. -/
def escapesAt : Nat → List String → Bool
  | _, [] => false
  | depth, s :: rest =>
    if s = "." then escapesAt depth rest
    else if s = ".." then depth = 0 || escapesAt (depth - 1) rest
    else escapesAt (depth + 1) rest

/-- A decoded path whose traversal segments escape the served root. -/
def escapesRoot (p : String) : Bool := escapesAt 0 (pathSegments p)

/-- First entry of the root with the given name, as opening that name under
the root would find it. -/
def lookupFile (fs : Fs) (name : String) : Option (List Nat) :=
  fs.rootEntries.bind (fun es => (es.find? (fun e => e.1 = name)).map Prod.snd)

/-- Modelled from the spec: the content type of the Static File Responder
("set a content type based on file extension (at minimum, the audio
extension should map to the appropriate audio MIME type)"). -/
def contentTypeFor (name : String) : String :=
  if isAudio name then "audio/mpeg" else "application/octet-stream"

/-- Modelled from the spec: the Static File Responder
(`super().do_GET()` on src/mp3.py line 35 delegates to
`SimpleHTTPRequestHandler`, Python standard library, not under src/):
resolve the decoded path against the served root, answering 404 when the
resolution escapes the root or no such file exists directly in the root,
the full file bytes with an extension-derived content type otherwise, and
for a byte-range request `bytes=a-b` on an existing file the
partial-content slice of exactly those bytes ("support partial-content
(range) requests"); a syntactically valid but unsatisfiable range yields
416. -/
def staticResponse (fs : Fs) (p : String) (range : Option (Nat × Nat)) : Response :=
  match resolvePath p with
  | none => notFound
  | some segs =>
    match segs with
    | [name] =>
      match lookupFile fs name with
      | none => notFound
      | some bytes =>
        match range with
        | none => { status := 200, contentType := contentTypeFor name, body := bytes }
        | some (a, b) =>
          if a ≤ b && b < bytes.length then
            { status := 206, contentType := contentTypeFor name,
              body := (bytes.drop a).take (b + 1 - a) }
          else
            { status := 416, contentType := contentTypeFor name, body := [] }
    | _ => notFound

/-- The response of the playlist endpoint as a function of the filesystem:
the JSON array of the audio-filtered listing, or — modelled from the spec —
the server error on a listing failure. -/
def playlistResponse (fs : Fs) : Response :=
  match fs.rootEntries with
  | some es => send_json ((es.map Prod.fst).filter isAudio)
  | none => serverError

/-- `Handler.do_GET` (src/mp3.py lines 26–35): decode the routed path; on
`/playlist.json` list the root, filter by the audio-suffix test and send
the JSON array (`send_json`), the listing failure surfacing as a server
error; on `/` send the constant page (`send_html PLAYER_HTML`); otherwise
delegate to the static file responder. -/
def do_GET (fs : Fs) (target : String) (range : Option (Nat × Nat)) : Response :=
  let path := unquote (stripQuery target)
  if path = "/playlist.json" then
    match fs.rootEntries with
    | some es => send_json ((es.map Prod.fst).filter isAudio)
    | none => serverError
  else if path = "/" then
    send_html PLAYER_HTML
  else
    staticResponse fs path range

/-- Outcome of process startup. -/
inductive StartupResult where
  | exited (code : Nat) (msg : String)
  | listening (port : Nat)
deriving DecidableEq, Repr

/-- Startup sequence of src/mp3.py lines 19–22 and 179–181: when the root
is not a directory, `sys.exit` with an error message (exit status 1 — a
string argument to `sys.exit` means status 1) before the `TCPServer` is
ever constructed; otherwise the socket is bound on the given port. -/
def startup (rootIsDir : Bool) (root : String) (port : Nat) : StartupResult :=
  if rootIsDir then
    StartupResult.listening port
  else
    StartupResult.exited 1 ("Error: " ++ root ++ " is not a directory")

/-! ## Dispatch lemmas: how `do_GET` routes on the decoded path. -/

theorem do_GET_eq_playlist (fs : Fs) (t : String) (r : Option (Nat × Nat))
    (h : routedPath t = "/playlist.json") : do_GET fs t r = playlistResponse fs := by
  simp only [routedPath] at h
  simp [do_GET, playlistResponse, h]

theorem do_GET_eq_page (fs : Fs) (t : String) (r : Option (Nat × Nat))
    (h : routedPath t = "/") : do_GET fs t r = send_html PLAYER_HTML := by
  simp only [routedPath] at h
  simp [do_GET, h, show ("/" : String) ≠ "/playlist.json" by decide]

theorem do_GET_eq_static (fs : Fs) (t : String) (r : Option (Nat × Nat))
    (h1 : routedPath t ≠ "/playlist.json") (h2 : routedPath t ≠ "/") :
    do_GET fs t r = staticResponse fs (routedPath t) r := by
  simp only [routedPath] at h1 h2
  simp [do_GET, routedPath, h1, h2]

/-! ## Root-entry lookup. -/

theorem find?_root_entry (es : List (String × List Nat)) (name : String) (bytes : List Nat)
    (hnd : (es.map Prod.fst).Nodup) (hmem : (name, bytes) ∈ es) :
    es.find? (fun e => e.1 = name) = some (name, bytes) := by
  induction es with
  | nil => cases hmem
  | cons e rest ih =>
    rw [List.map_cons, List.nodup_cons] at hnd
    rcases List.mem_cons.mp hmem with he | hm
    · rw [← he, List.find?_cons_of_pos]
      simp
    · have hne : e.1 ≠ name := by
        intro heq
        exact hnd.1 (heq ▸ List.mem_map_of_mem Prod.fst hm)
      rw [List.find?_cons_of_neg]
      · exact ih hnd.2 hm
      · simp [hne]

theorem lookupFile_eq (fs : Fs) (es : List (String × List Nat)) (name : String)
    (bytes : List Nat) (hfs : fs.rootEntries = some es)
    (hnd : (es.map Prod.fst).Nodup) (hmem : (name, bytes) ∈ es) :
    lookupFile fs name = some bytes := by
  simp [lookupFile, hfs, find?_root_entry es name bytes hnd hmem]

/-! ## Path resolution of a plain root-level filename. -/

theorem splitSlash_no_slash (cs : List Char) (h : '/' ∉ cs) : splitSlash cs = [cs] := by
  induction cs with
  | nil => rfl
  | cons c rest ih =>
    have hc : c ≠ '/' := fun hcc => h (hcc ▸ List.mem_cons_self c rest)
    have hr : splitSlash rest = [rest] := ih (fun hm => h (List.mem_cons_of_mem c hm))
    simp [splitSlash, hc, hr]

theorem pathSegments_root_name (name : String) (hs : '/' ∉ name.data)
    (hne : name.data ≠ []) : pathSegments ("/" ++ name) = [name] := by
  obtain ⟨cs⟩ := name
  have hne' : cs ≠ [] := hne
  have hone : splitSlash ('/' :: cs) = [] :: [cs] := by
    rw [splitSlash]
    simp [splitSlash_no_slash cs hs]
  have hdata : (("/" ++ String.mk cs)).data = '/' :: cs := by
    rw [String.data_append]
    rfl
  simp [pathSegments, hdata, hone, hne']

theorem resolvePath_root_name (name : String) (hs : '/' ∉ name.data)
    (hne : name.data ≠ []) (h1 : name ≠ ".") (h2 : name ≠ "..") :
    resolvePath ("/" ++ name) = some [name] := by
  rw [resolvePath, pathSegments_root_name name hs hne]
  simp [resolveAux, h1, h2]

/-! ## The audio-suffix predicate on degenerate names. -/

theorem isAudio_data_ne_nil (name : String) (h : isAudio name = true) : name.data ≠ [] := by
  intro hd
  obtain ⟨cs⟩ := name
  simp only [String.data] at hd
  subst hd
  exact absurd h (by decide)

theorem isAudio_ne (name s : String) (h : isAudio name = true) (hs : isAudio s = false)
    : name ≠ s := by
  intro he
  rw [he, hs] at h
  cases h

theorem root_concat_inj (name s : String) (h : "/" ++ name = "/" ++ s) : name = s := by
  have hd := congrArg String.data h
  rw [String.data_append, String.data_append] at hd
  exact String.ext (List.append_cancel_left hd)

/-! ## Escaping traversal resolves to `none`. -/

theorem resolveAux_eq_none (segs : List String) : ∀ acc : List String,
    escapesAt acc.length segs = true → resolveAux acc segs = none := by
  induction segs with
  | nil =>
    intro acc h
    exact absurd h (by simp [escapesAt])
  | cons s rest ih =>
    intro acc h
    rw [escapesAt] at h
    rw [resolveAux]
    by_cases h1 : s = "."
    · simp only [h1, if_pos rfl] at h ⊢
      exact ih acc h
    · by_cases h2 : s = ".."
      · have hd1 : ¬((".." : String) = ".") := by decide
        simp only [h1, h2, if_neg hd1, if_pos rfl] at h ⊢
        cases acc with
        | nil => rfl
        | cons a acc' =>
          have h' : escapesAt acc'.length rest = true := by
            simpa using h
          simpa using ih acc' h'
      · simp only [h1, h2, if_neg h1, if_neg h2] at h ⊢
        exact ih (s :: acc) (by simpa using h)

theorem resolvePath_eq_none (p : String) (h : escapesRoot p = true) :
    resolvePath p = none := by
  rw [resolvePath]
  exact resolveAux_eq_none (pathSegments p) [] (by simpa [escapesRoot] using h)

/-! ## Claim theorems. -/

/-- C1: For every state of the served root directory, a GET request to
`/playlist.json` responds with status 200, Content-Type `application/json`,
and a body that is the JSON array of exactly those entry names directly
inside the root whose lowercased name ends with ".mp3" — no others, no
duplicates; an empty directory yields the empty array `[]` with status 200. -/
theorem playlist_response_exact (fs : Fs) (es : List (String × List Nat))
    (hfs : fs.rootEntries = some es) (hnd : (es.map Prod.fst).Nodup) :
    (do_GET fs "/playlist.json" none).status = 200 ∧
    (do_GET fs "/playlist.json" none).contentType = "application/json" ∧
    (do_GET fs "/playlist.json" none).body =
      encodeStr (jsonDumps ((es.map Prod.fst).filter isAudio)) ∧
    (∀ f : String, f ∈ (es.map Prod.fst).filter isAudio ↔
      f ∈ es.map Prod.fst ∧ isAudio f = true) ∧
    ((es.map Prod.fst).filter isAudio).Nodup ∧
    (es = [] → (do_GET fs "/playlist.json" none).body = encodeStr "[]") := by
  have hd : do_GET fs "/playlist.json" none = playlistResponse fs :=
    do_GET_eq_playlist fs _ none (by decide)
  rw [hd]
  simp only [playlistResponse, hfs]
  refine ⟨rfl, rfl, rfl, ?_, hnd.filter _, ?_⟩
  · intro f
    simp [List.mem_filter]
  · intro he
    subst he
    decide

/-- Witness for C1: the scenario root `a.mp3`, `c.txt`, `b.MP3`. -/
theorem playlist_response_exact_witness :
    ((⟨some [("a.mp3", [1]), ("c.txt", [2]), ("b.MP3", [3])], []⟩ : Fs).rootEntries =
      some [("a.mp3", [1]), ("c.txt", [2]), ("b.MP3", [3])]) ∧
    ((([("a.mp3", ([1] : List Nat)), ("c.txt", [2]), ("b.MP3", [3])].map Prod.fst)).Nodup) ∧
    ((do_GET ⟨some [("a.mp3", [1]), ("c.txt", [2]), ("b.MP3", [3])], []⟩ "/playlist.json" none).status = 200 ∧
    (do_GET ⟨some [("a.mp3", [1]), ("c.txt", [2]), ("b.MP3", [3])], []⟩ "/playlist.json" none).contentType = "application/json" ∧
    (do_GET ⟨some [("a.mp3", [1]), ("c.txt", [2]), ("b.MP3", [3])], []⟩ "/playlist.json" none).body =
      encodeStr (jsonDumps (([("a.mp3", ([1] : List Nat)), ("c.txt", [2]), ("b.MP3", [3])].map Prod.fst).filter isAudio)) ∧
    (∀ f : String, f ∈ ([("a.mp3", ([1] : List Nat)), ("c.txt", [2]), ("b.MP3", [3])].map Prod.fst).filter isAudio ↔
      f ∈ [("a.mp3", ([1] : List Nat)), ("c.txt", [2]), ("b.MP3", [3])].map Prod.fst ∧ isAudio f = true) ∧
    (([("a.mp3", ([1] : List Nat)), ("c.txt", [2]), ("b.MP3", [3])].map Prod.fst).filter isAudio).Nodup ∧
    ([("a.mp3", ([1] : List Nat)), ("c.txt", [2]), ("b.MP3", [3])] = [] →
      (do_GET ⟨some [("a.mp3", [1]), ("c.txt", [2]), ("b.MP3", [3])], []⟩ "/playlist.json" none).body = encodeStr "[]")) :=
  ⟨rfl, by decide, playlist_response_exact _ _ rfl (by decide)⟩

/-- C2: For every incoming GET request, the path used for routing is the
request target truncated at the first `?` and then percent-decoded; if that
path equals `/playlist.json` the request is handled by the playlist
endpoint, if it equals `/` by the page responder, and otherwise by the
static file responder. -/
theorem dispatch_by_decoded_path (fs : Fs) (target : String) (r : Option (Nat × Nat)) :
    routedPath target = unquote (stripQuery target) ∧
    (routedPath target = "/playlist.json" → do_GET fs target r = playlistResponse fs) ∧
    (routedPath target ≠ "/playlist.json" → routedPath target = "/" →
      do_GET fs target r = send_html PLAYER_HTML) ∧
    (routedPath target ≠ "/playlist.json" → routedPath target ≠ "/" →
      do_GET fs target r = staticResponse fs (routedPath target) r) :=
  ⟨rfl, fun h => do_GET_eq_playlist fs target r h,
   fun _ h => do_GET_eq_page fs target r h,
   fun h1 h2 => do_GET_eq_static fs target r h1 h2⟩

/-- Witness for C2: one target per routing branch, including a target whose
query string is stripped before the comparison. -/
theorem dispatch_by_decoded_path_witness :
    (routedPath "/playlist.json?x=1" = "/playlist.json" ∧
      do_GET ⟨some [], []⟩ "/playlist.json?x=1" none = playlistResponse ⟨some [], []⟩) ∧
    (routedPath "/?x=1" ≠ "/playlist.json" ∧ routedPath "/?x=1" = "/" ∧
      do_GET ⟨some [], []⟩ "/?x=1" none = send_html PLAYER_HTML) ∧
    (routedPath "/a.mp3" ≠ "/playlist.json" ∧ routedPath "/a.mp3" ≠ "/" ∧
      do_GET ⟨some [], []⟩ "/a.mp3" none =
        staticResponse ⟨some [], []⟩ (routedPath "/a.mp3") none) :=
  ⟨⟨by decide, (dispatch_by_decoded_path ⟨some [], []⟩ "/playlist.json?x=1" none).2.1 (by decide)⟩,
   ⟨by decide, by decide,
     (dispatch_by_decoded_path ⟨some [], []⟩ "/?x=1" none).2.2.1 (by decide) (by decide)⟩,
   ⟨by decide, by decide,
     (dispatch_by_decoded_path ⟨some [], []⟩ "/a.mp3" none).2.2.2 (by decide) (by decide)⟩⟩

/-- C6: If the served root directory becomes unreadable at request time, the
request to `/playlist.json` receives a server error response; this affects
only that single request — a request against a readable root is still
answered 200 by the same (total, stateless) handler function, so the
process does not crash. -/
theorem listing_failure_isolated (fs fs2 : Fs) (es2 : List (String × List Nat))
    (r r2 : Option (Nat × Nat))
    (hfs : fs.rootEntries = none) (h2 : fs2.rootEntries = some es2) :
    do_GET fs "/playlist.json" r = serverError ∧
    (do_GET fs "/playlist.json" r).status = 500 ∧
    (do_GET fs2 "/playlist.json" r2).status = 200 := by
  have e1 := do_GET_eq_playlist fs "/playlist.json" r (by decide)
  have e2 := do_GET_eq_playlist fs2 "/playlist.json" r2 (by decide)
  refine ⟨?_, ?_, ?_⟩ <;>
    simp [e1, e2, playlistResponse, hfs, h2, serverError, send_json]

/-- Witness for C6: an unreadable root alongside a readable one. -/
theorem listing_failure_isolated_witness :
    ((⟨none, []⟩ : Fs).rootEntries = none) ∧
    ((⟨some [], []⟩ : Fs).rootEntries = some []) ∧
    (do_GET ⟨none, []⟩ "/playlist.json" none = serverError ∧
    (do_GET ⟨none, []⟩ "/playlist.json" none).status = 500 ∧
    (do_GET ⟨some [], []⟩ "/playlist.json" none).status = 200) :=
  ⟨rfl, rfl, listing_failure_isolated ⟨none, []⟩ ⟨some [], []⟩ [] none none rfl rfl⟩

/-- C7: If the root argument given at startup is not a directory (including
a non-existent path), the process exits with status 1 (non-zero) and an
error message before the listening socket is bound: the startup result is
never a listening socket. -/
theorem startup_non_directory_exits (root : String) (port : Nat) :
    startup false root port =
      StartupResult.exited 1 ("Error: " ++ root ++ " is not a directory") ∧
    (1 : Nat) ≠ 0 ∧
    (∀ p : Nat, startup false root port ≠ StartupResult.listening p) := by
  refine ⟨by simp [startup], by decide, ?_⟩
  intro p h
  simp [startup] at h

/-- C8: Every GET request to `/` returns status 200 with Content-Type
`text/html; charset=utf-8`, and for any two such requests within one
process lifetime the response bodies are byte-identical — the fixed
embedded player document, with no per-request variation. -/
theorem page_response_constant (fs fs' : Fs) (t t' : String) (r r' : Option (Nat × Nat))
    (h : routedPath t = "/") (h' : routedPath t' = "/") :
    (do_GET fs t r).status = 200 ∧
    (do_GET fs t r).contentType = "text/html; charset=utf-8" ∧
    do_GET fs t r = send_html PLAYER_HTML ∧
    (do_GET fs t r).body = (do_GET fs' t' r').body := by
  have e1 := do_GET_eq_page fs t r h
  have e2 := do_GET_eq_page fs' t' r' h'
  rw [e1, e2]
  exact ⟨rfl, rfl, rfl, rfl⟩

/-- Witness for C8: two requests to `/` against different filesystem states. -/
theorem page_response_constant_witness :
    routedPath "/" = "/" ∧ routedPath "/?lang=en" = "/" ∧
    ((do_GET ⟨some [("a.mp3", [1])], []⟩ "/" none).status = 200 ∧
    (do_GET ⟨some [("a.mp3", [1])], []⟩ "/" none).contentType = "text/html; charset=utf-8" ∧
    do_GET ⟨some [("a.mp3", [1])], []⟩ "/" none = send_html PLAYER_HTML ∧
    (do_GET ⟨some [("a.mp3", [1])], []⟩ "/" none).body =
      (do_GET ⟨none, []⟩ "/?lang=en" (some (0, 1))).body) :=
  ⟨by decide, by decide,
   page_response_constant ⟨some [("a.mp3", [1])], []⟩ ⟨none, []⟩ "/" "/?lang=en"
     none (some (0, 1)) (by decide) (by decide)⟩

/-- C3: For every GET request whose decoded path contains parent-directory
traversal segments that would resolve outside the served root, the server
responds 404, with no file content in the body — and no response ever
depends on the files outside the served root. -/
theorem traversal_outside_root_rejected (fs : Fs) (target : String)
    (r : Option (Nat × Nat)) (h : escapesRoot (routedPath target) = true) :
    (do_GET fs target r).status = 404 ∧
    (do_GET fs target r).body = [] ∧
    (∀ (root : Option (List (String × List Nat))) (o o' : List (String × List Nat))
      (t' : String) (r' : Option (Nat × Nat)),
      do_GET ⟨root, o⟩ t' r' = do_GET ⟨root, o'⟩ t' r') := by
  have h1 : routedPath target ≠ "/playlist.json" := by
    intro he
    rw [he] at h
    exact absurd h (by decide)
  have h2 : routedPath target ≠ "/" := by
    intro he
    rw [he] at h
    exact absurd h (by decide)
  rw [do_GET_eq_static fs target r h1 h2]
  refine ⟨?_, ?_, ?_⟩
  · simp [staticResponse, resolvePath_eq_none _ h, notFound]
  · simp [staticResponse, resolvePath_eq_none _ h, notFound]
  · intro root o o' t' r'
    rfl

/-- Witness for C3: a traversal attempt at an mp3 that does exist in the
parent of the root. -/
theorem traversal_outside_root_rejected_witness :
    escapesRoot (routedPath "/../secret.mp3") = true ∧
    ((do_GET ⟨some [("a.mp3", [1])], [("secret.mp3", [9])]⟩ "/../secret.mp3" none).status = 404 ∧
    (do_GET ⟨some [("a.mp3", [1])], [("secret.mp3", [9])]⟩ "/../secret.mp3" none).body = [] ∧
    (∀ (root : Option (List (String × List Nat))) (o o' : List (String × List Nat))
      (t' : String) (r' : Option (Nat × Nat)),
      do_GET ⟨root, o⟩ t' r' = do_GET ⟨root, o'⟩ t' r')) :=
  ⟨by decide,
   traversal_outside_root_rejected ⟨some [("a.mp3", [1])], [("secret.mp3", [9])]⟩
     "/../secret.mp3" none (by decide)⟩

/-- C4: For every existing audio file directly under the served root and
every satisfiable byte range requested of it, the static file responder
returns a partial-content (206) response with the audio content type whose
body is exactly the requested slice of that file's bytes. -/
theorem range_request_exact_bytes (fs : Fs) (es : List (String × List Nat))
    (name : String) (bytes : List Nat) (a b : Nat)
    (hfs : fs.rootEntries = some es) (hnd : (es.map Prod.fst).Nodup)
    (hmem : (name, bytes) ∈ es) (haud : isAudio name = true)
    (hslash : '/' ∉ name.data) (hab : a ≤ b) (hb : b < bytes.length) :
    (staticResponse fs ("/" ++ name) (some (a, b))).status = 206 ∧
    (staticResponse fs ("/" ++ name) (some (a, b))).contentType = "audio/mpeg" ∧
    (staticResponse fs ("/" ++ name) (some (a, b))).body = (bytes.drop a).take (b + 1 - a) ∧
    (staticResponse fs ("/" ++ name) (some (a, b))).body.length = b + 1 - a ∧
    (∀ i, i < b + 1 - a →
      (staticResponse fs ("/" ++ name) (some (a, b))).body[i]? = bytes[a + i]?) := by
  have hres : resolvePath ("/" ++ name) = some [name] :=
    resolvePath_root_name name hslash (isAudio_data_ne_nil name haud)
      (isAudio_ne name "." haud (by decide)) (isAudio_ne name ".." haud (by decide))
  have hlook : lookupFile fs name = some bytes := lookupFile_eq fs es name bytes hfs hnd hmem
  have hct : contentTypeFor name = "audio/mpeg" := by
    simp [contentTypeFor, haud]
  have hresp : staticResponse fs ("/" ++ name) (some (a, b)) =
      { status := 206, contentType := contentTypeFor name,
        body := (bytes.drop a).take (b + 1 - a) } := by
    simp [staticResponse, hres, hlook, hab, hb]
  rw [hresp, hct]
  refine ⟨rfl, rfl, rfl, ?_, ?_⟩
  · rw [List.length_take, List.length_drop]
    omega
  · intro i hi
    rw [List.getElem?_take, if_pos hi, List.getElem?_drop]

/-- Witness for C4: bytes 1 to 2 of a four-byte mp3. -/
theorem range_request_exact_bytes_witness :
    ((⟨some [("song.mp3", [10, 20, 30, 40])], []⟩ : Fs).rootEntries =
      some [("song.mp3", [10, 20, 30, 40])]) ∧
    ([("song.mp3", ([10, 20, 30, 40] : List Nat))].map Prod.fst).Nodup ∧
    ("song.mp3", ([10, 20, 30, 40] : List Nat)) ∈ [("song.mp3", ([10, 20, 30, 40] : List Nat))] ∧
    isAudio "song.mp3" = true ∧ '/' ∉ "song.mp3".data ∧ 1 ≤ 2 ∧
    2 < ([10, 20, 30, 40] : List Nat).length ∧
    ((staticResponse ⟨some [("song.mp3", [10, 20, 30, 40])], []⟩ ("/" ++ "song.mp3") (some (1, 2))).status = 206 ∧
    (staticResponse ⟨some [("song.mp3", [10, 20, 30, 40])], []⟩ ("/" ++ "song.mp3") (some (1, 2))).contentType = "audio/mpeg" ∧
    (staticResponse ⟨some [("song.mp3", [10, 20, 30, 40])], []⟩ ("/" ++ "song.mp3") (some (1, 2))).body =
      (([10, 20, 30, 40] : List Nat).drop 1).take (2 + 1 - 1) ∧
    (staticResponse ⟨some [("song.mp3", [10, 20, 30, 40])], []⟩ ("/" ++ "song.mp3") (some (1, 2))).body.length = 2 + 1 - 1 ∧
    (∀ i, i < 2 + 1 - 1 →
      (staticResponse ⟨some [("song.mp3", [10, 20, 30, 40])], []⟩ ("/" ++ "song.mp3") (some (1, 2))).body[i]? =
        ([10, 20, 30, 40] : List Nat)[1 + i]?)) :=
  ⟨rfl, by decide, by decide, by decide, by decide, by decide, by decide,
   range_request_exact_bytes ⟨some [("song.mp3", [10, 20, 30, 40])], []⟩
     [("song.mp3", [10, 20, 30, 40])] "song.mp3" [10, 20, 30, 40] 1 2
     rfl (by decide) (by decide) (by decide) (by decide) (by decide) (by decide)⟩

/-- C5: For every filename contained in a playlist response, a GET request
whose decoded path is `/` followed by that filename — with the filesystem
unchanged since the listing — returns status 200 with exactly the byte
content of that file on disk: every playlist entry is openable by the
static file responder. -/
theorem playlist_entry_openable (fs : Fs) (es : List (String × List Nat))
    (name : String) (bytes : List Nat) (target : String)
    (hfs : fs.rootEntries = some es) (hnd : (es.map Prod.fst).Nodup)
    (hmem : (name, bytes) ∈ es) (haud : isAudio name = true)
    (hslash : '/' ∉ name.data) (hpath : routedPath target = "/" ++ name) :
    name ∈ (es.map Prod.fst).filter isAudio ∧
    (do_GET fs target none).status = 200 ∧
    (do_GET fs target none).body = bytes := by
  have hmemf : name ∈ es.map Prod.fst := List.mem_map_of_mem Prod.fst hmem
  have h1 : routedPath target ≠ "/playlist.json" := by
    rw [hpath]
    intro he
    have hn : name = "playlist.json" := root_concat_inj name _ (he.trans (by decide))
    rw [hn] at haud
    exact absurd haud (by decide)
  have h2 : routedPath target ≠ "/" := by
    rw [hpath]
    intro he
    have hd := congrArg String.data he
    rw [String.data_append] at hd
    have hnil : name.data = [] := by
      simpa using hd
    exact isAudio_data_ne_nil name haud hnil
  rw [do_GET_eq_static fs target none h1 h2, hpath]
  have hres : resolvePath ("/" ++ name) = some [name] :=
    resolvePath_root_name name hslash (isAudio_data_ne_nil name haud)
      (isAudio_ne name "." haud (by decide)) (isAudio_ne name ".." haud (by decide))
  have hlook : lookupFile fs name = some bytes := lookupFile_eq fs es name bytes hfs hnd hmem
  refine ⟨List.mem_filter.mpr ⟨hmemf, haud⟩, ?_, ?_⟩ <;>
    simp [staticResponse, hres, hlook]

/-- Witness for C5: the one playlist entry of a one-file root is fetchable. -/
theorem playlist_entry_openable_witness :
    ((⟨some [("a.mp3", [7, 8, 9])], []⟩ : Fs).rootEntries = some [("a.mp3", [7, 8, 9])]) ∧
    ([("a.mp3", ([7, 8, 9] : List Nat))].map Prod.fst).Nodup ∧
    ("a.mp3", ([7, 8, 9] : List Nat)) ∈ [("a.mp3", ([7, 8, 9] : List Nat))] ∧
    isAudio "a.mp3" = true ∧ '/' ∉ "a.mp3".data ∧
    routedPath "/a.mp3" = "/" ++ "a.mp3" ∧
    ("a.mp3" ∈ ([("a.mp3", ([7, 8, 9] : List Nat))].map Prod.fst).filter isAudio ∧
    (do_GET ⟨some [("a.mp3", [7, 8, 9])], []⟩ "/a.mp3" none).status = 200 ∧
    (do_GET ⟨some [("a.mp3", [7, 8, 9])], []⟩ "/a.mp3" none).body = [7, 8, 9]) :=
  ⟨rfl, by decide, by decide, by decide, by decide, by decide,
   playlist_entry_openable ⟨some [("a.mp3", [7, 8, 9])], []⟩ [("a.mp3", [7, 8, 9])]
     "a.mp3" [7, 8, 9] "/a.mp3" rfl (by decide) (by decide) (by decide) (by decide) (by decide)⟩

/-- C9: The playlist filter is a pure suffix test on the lowercased entry
name, so a directory entry named exactly ".mp3" (in any letter case) is
included in the playlist response. -/
theorem dot_mp3_entry_included (fs : Fs) (es : List (String × List Nat)) (name : String)
    (hfs : fs.rootEntries = some es) (hlower : lowerStr name = ".mp3")
    (hmem : name ∈ es.map Prod.fst) :
    isAudio name = true ∧
    name ∈ (es.map Prod.fst).filter isAudio ∧
    (do_GET fs "/playlist.json" none).body =
      encodeStr (jsonDumps ((es.map Prod.fst).filter isAudio)) := by
  have ha : isAudio name = true := by
    rw [isAudio, hlower]
    decide
  refine ⟨ha, List.mem_filter.mpr ⟨hmem, ha⟩, ?_⟩
  rw [do_GET_eq_playlist fs "/playlist.json" none (by decide)]
  simp [playlistResponse, hfs, send_json]

/-- Witness for C9: a root whose sole entry is named ".MP3". -/
theorem dot_mp3_entry_included_witness :
    ((⟨some [(".MP3", [5])], []⟩ : Fs).rootEntries = some [(".MP3", [5])]) ∧
    lowerStr ".MP3" = ".mp3" ∧
    ".MP3" ∈ [(".MP3", ([5] : List Nat))].map Prod.fst ∧
    (isAudio ".MP3" = true ∧
    ".MP3" ∈ ([(".MP3", ([5] : List Nat))].map Prod.fst).filter isAudio ∧
    (do_GET ⟨some [(".MP3", [5])], []⟩ "/playlist.json" none).body =
      encodeStr (jsonDumps (([(".MP3", ([5] : List Nat))].map Prod.fst).filter isAudio))) :=
  ⟨rfl, by decide, by decide,
   dot_mp3_entry_included ⟨some [(".MP3", [5])], []⟩ [(".MP3", [5])] ".MP3"
     rfl (by decide) (by decide)⟩

/-- C10: Query-string stripping happens before percent-decoding: only a
literal `?` delimits the query, so the percent-encoded `%3F` in the target
`/playlist.json%3Fx=1` survives stripping and decodes to an ordinary `?`
in the routed path, which therefore is not `/playlist.json` — the request
falls through to the static file responder. -/
theorem query_stripped_before_decoding :
    stripQuery "/playlist.json%3Fx=1" = "/playlist.json%3Fx=1" ∧
    routedPath "/playlist.json%3Fx=1" = "/playlist.json?x=1" ∧
    routedPath "/playlist.json%3Fx=1" ≠ "/playlist.json" ∧
    (∀ (fs : Fs) (r : Option (Nat × Nat)),
      do_GET fs "/playlist.json%3Fx=1" r = staticResponse fs "/playlist.json?x=1" r) := by
  refine ⟨by decide, by decide, by decide, ?_⟩
  intro fs r
  have e := do_GET_eq_static fs "/playlist.json%3Fx=1" r (by decide) (by decide)
  rw [e]
  have hr : routedPath "/playlist.json%3Fx=1" = "/playlist.json?x=1" := by decide
  rw [hr]

end Mp3Srv
